import Mathlib

/-!
Verification of the osrsbox-enhanced-monsters extraction core.

The definitions below are a shallow embedding of the two source files
`monsters_builder/monster_builder.py` and `builders/monsters/infobox_cleaner.py`.
Raw wikitext values are `String`s; a value that Python represents as `None`
is an `Option`'s `none`; code that can raise is embedded in `Except String`
with the error message naming the Python exception class.
-/

/-- Python `str.isspace` characters relevant to `str.strip()` (ASCII range). -/
def pyIsSpace (c : Char) : Bool :=
  c = ' ' || c = '\t' || c = '\n' || c = '\r' || c = '\x0b' || c = '\x0c'

/-- Python `str.strip()` on a character list: drop whitespace from both ends. -/
def pyStripChars (l : List Char) : List Char :=
  ((l.dropWhile pyIsSpace).reverse.dropWhile pyIsSpace).reverse

/-- Python `str.strip()`. -/
def pyStrip (s : String) : String :=
  String.mk (pyStripChars s.data)

/-- Python `str.lower()` (ASCII case folding, which covers the wiki inputs). -/
def pyLowerStr (s : String) : String :=
  String.mk (s.data.map Char.toLower)

/-- Python `str(x)` applied to a `str`-or-`None` value: `None` prints as "None". -/
def pyStr : Option String → String
  | none => "None"
  | some s => s

/-- Does `hay` start with `needle`? (Helper for Python substring tests.) -/
def startsWithList : List Char → List Char → Bool
  | [], _ => true
  | _ :: _, [] => false
  | a :: as, b :: bs => a = b && startsWithList as bs

/-- Does `needle` occur contiguously inside `hay`? -/
def occursIn (needle : List Char) : List Char → Bool
  | [] => startsWithList needle []
  | c :: t => startsWithList needle (c :: t) || occursIn needle t

/-- Python `sub in s` substring test. -/
def strHas (s sub : String) : Bool :=
  occursIn sub.data s.data

/-- Python truthiness of a bool-or-`None` value. -/
def pyTruthyOptBool : Option Bool → Bool
  | none => false
  | some b => b

/-- Python truthiness of an int-or-`None` value (0 and `None` are falsy). -/
def pyTruthyOptNat : Option Nat → Bool
  | none => false
  | some n => decide (n ≠ 0)

/-- Python truthiness of a str-or-`None` value ("" and `None` are falsy). -/
def pyTruthyOptStr : Option String → Bool
  | none => false
  | some s => decide (s ≠ "")

/-- Python falsiness of a str-or-`None` value, i.e. `v is None or v == ""`. -/
def pyFalsyStrOpt (v : Option String) : Bool :=
  !(pyTruthyOptStr v)

/-!
## monster_builder.py: the versioned field resolver

`BuildMonster.extract_infobox_value` wraps `template.get(key).value.strip()`;
`mwparserfromhell` raises `ValueError` for a missing key, which the method
catches, returning `None`.  The template itself is embedded as an association
list from markup key to raw markup value.
-/

/-- Lookup of a key in the parsed infobox template (`template.get(key).value`);
`none` is the `ValueError` raised by `mwparserfromhell` for a missing key. -/
def templateGet : List (String × String) → String → Option String
  | [], _ => none
  | (k, v) :: rest, key => if k = key then some v else templateGet rest key

/-- Embedding of `BuildMonster.extract_infobox_value` (monster_builder.py
lines 667-683): fetch the key, strip the value, and turn the `ValueError`
of a missing key into `None`. -/
def extract_infobox_value (template : List (String × String)) (key : String) :
    Option String :=
  match templateGet template key with
  | some v => some (pyStrip v)
  | none => none

/-- Embedding of the per-property lookup pattern repeated throughout
`populate_monster_properties_from_wiki_data` (e.g. monster_builder.py lines
292-298 for hitpoints): when `infobox_version_number` is not `None`, first
try `key + str(version)`; if that produced `None`, fall back to the bare
`key`. -/
def resolve_infobox_value (template : List (String × String))
    (version : Option String) (key : String) : Option String :=
  let first :=
    match version with
    | some v => extract_infobox_value template (key ++ v)
    | none => none
  match first with
  | some x => some x
  | none => extract_infobox_value template key

/-!
## monster_builder.py: preprocessing of the infobox version number
-/

/-- Lookup in the `versioned_ids` mapping (`self.versioned_ids[self.monster_id_int]`);
`none` is the `KeyError` path. -/
def lookupVersionedId : List (Nat × String) → Nat → Option String
  | [], _ => none
  | (k, v) :: rest, wanted => if k = wanted then some v else lookupVersionedId rest wanted

/-- Embedding of the version-number selection in `BuildMonster.preprocessing`
(monster_builder.py lines 182-191).  `__init__` initialises
`infobox_version_number = None`; the `try` block performs the dictionary
lookup only when `versioned_ids` is truthy (non-empty), and only a `KeyError`
from that lookup reaches the `except` that installs the `"1"` / `""` default. -/
def set_infobox_version_number (versionedIds : List (Nat × String))
    (isVersioned : Bool) (monsterIdInt : Nat) : Option String :=
  if versionedIds.isEmpty then
    none
  else
    match lookupVersionedId versionedIds monsterIdInt with
    | some v => some v
    | none => some (if isVersioned then "1" else "")

/-!
## monster_builder.py: members flag of a drop line
-/

/-- Embedding of the members determination for one "dropsline" template in
`BuildMonster.parse_monster_drops` (monster_builder.py lines 615-625).
`monsterMembers` is `self.monster_dict["members"]` (a bool or `None`),
`id` is the resolved item id (or `None`), `allDbItemsMembers` reads
`self.all_db_items[id].members`, and `nameNotes` is the extracted
"Namenotes" value.  The source is an `if / elif / elif` chain. -/
def drop_members (monsterMembers : Option Bool) (id : Option Nat)
    (allDbItemsMembers : Nat → Bool) (nameNotes : Option String) : Bool :=
  if pyTruthyOptBool monsterMembers then true
  else if pyTruthyOptNat id then
    (if allDbItemsMembers (id.getD 0) then true else false)
  else if pyTruthyOptStr nameNotes then
    (if strHas (nameNotes.getD "") "\x7b\x7bm\x7d\x7d" then true else false)
  else false

/-!
## Theorems for claims C1, C2, C9
-/

/-- Claim C1: versioned field resolution first looks up the suffixed key when
a version context is present and non-empty, falls back to the bare key only
when the suffixed key is absent, looks up the bare key directly when there is
no version context, resolves to absent when neither key exists, and on the
template `hitpoints1=50, hitpoints=20` resolves `hitpoints` to `50` under
version context "1" and to `20` under version context "". -/
theorem C1_thm :
    (∀ t v key x, v ≠ "" → extract_infobox_value t (key ++ v) = some x →
      resolve_infobox_value t (some v) key = some x) ∧
    (∀ t v key, v ≠ "" → extract_infobox_value t (key ++ v) = none →
      resolve_infobox_value t (some v) key = extract_infobox_value t key) ∧
    (∀ t key, resolve_infobox_value t none key = extract_infobox_value t key) ∧
    (∀ t v key, extract_infobox_value t (key ++ v) = none →
      extract_infobox_value t key = none →
      resolve_infobox_value t (some v) key = none) ∧
    resolve_infobox_value [("hitpoints1", "50"), ("hitpoints", "20")]
      (some "1") "hitpoints" = some "50" ∧
    resolve_infobox_value [("hitpoints1", "50"), ("hitpoints", "20")]
      (some "") "hitpoints" = some "20" := by
  refine ⟨?_, ?_, ?_, ?_, ?_, ?_⟩
  · intro t v key x _ h
    simp [resolve_infobox_value, h]
  · intro t v key _ h
    simp [resolve_infobox_value, h]
  · intro t key
    simp [resolve_infobox_value]
  · intro t v key h1 h2
    simp [resolve_infobox_value, h1, h2]
  · rfl
  · rfl

/-- Witness for C1: the fallback theorem applied to a concrete template. -/
theorem C1_witness :
    resolve_infobox_value [("hitpoints1", "50")] (some "1") "hitpoints" = some "50" :=
  C1_thm.1 [("hitpoints1", "50")] "1" "hitpoints" "50" (by decide) (by decide)

/-- Counterexample to claim C2: a drop of a non-members monster whose item id
resolved (to a non-members catalog item) but whose inline name-notes carry the
explicit members marker still gets `members = false`, because the `elif`
chain never consults the notes once the id is truthy; the claim demands
`true` here. -/
theorem C2_counterexample :
    drop_members (some false) (some 5) (fun _ => false)
      (some "\x7b\x7bm\x7d\x7d") = false := by
  decide

/-- Claim C2 (amended): the members flag of a drop line is true when the
owning monster is members-only; otherwise, when the item id is truthy, it
equals the catalog entry's members flag (the inline note is not consulted);
the inline marker is consulted only when the id did not resolve (or is 0). -/
theorem C2_thm :
    ∀ (mm : Option Bool) (id : Option Nat) (f : Nat → Bool) (nn : Option String),
      drop_members mm id f nn =
        (pyTruthyOptBool mm || (pyTruthyOptNat id && f (id.getD 0)) ||
          (!(pyTruthyOptNat id) && pyTruthyOptStr nn &&
            strHas (nn.getD "") "\x7b\x7bm\x7d\x7d")) := by
  intro mm id f nn
  unfold drop_members
  cases hm : pyTruthyOptBool mm <;>
    cases hi : pyTruthyOptNat id <;>
      cases hn : pyTruthyOptStr nn <;>
        simp [hm, hi, hn]

/-- Counterexample to claim C9: with an empty version-index mapping the
lookup is skipped entirely (no `KeyError` fires), so the version number
remains unset (`None`) rather than defaulting to "1" for a versioned
template as the claim asserts. -/
theorem C9_counterexample :
    set_infobox_version_number [] true 3 ≠ some "1" := by
  decide

/-- Claim C9 (amended): when the version-index mapping is non-empty but the
entity's id is not a key of it, the version suffix defaults to "1" for a
versioned template and to "" otherwise; when the mapping is empty the lookup
never runs and the version number stays `None`. -/
theorem C9_thm :
    (∀ ids iv mid, ids ≠ [] → lookupVersionedId ids mid = none →
      set_infobox_version_number ids iv mid = some (if iv then "1" else "")) ∧
    (∀ iv mid, set_infobox_version_number [] iv mid = none) := by
  constructor
  · intro ids iv mid hne hlook
    unfold set_infobox_version_number
    rw [if_neg (by simpa [List.isEmpty_iff] using hne)]
    rw [hlook]
  · intro iv mid
    rfl

/-- Witness for C9: a non-empty mapping missing id 3 defaults to "1". -/
theorem C9_witness :
    set_infobox_version_number [(7, "2")] true 3 = some "1" :=
  C9_thm.1 [(7, "2")] true 3 (by decide) (by decide)

/-!
## infobox_cleaner.py: the generic wikitext cleaner

`clean_wikitext` string-casts, strips, then applies four `re.sub` passes:
remove every `[` and `]`; remove every occurrence of a space followed by a
parenthesised run of non-parenthesis characters; remove every `<!-- ... -->`
comment (non-greedy, not across newlines); remove `<br` and the rest of its
line.  Each pass is embedded as a fuel-indexed scan (the fuel
`length + 1` is always sufficient because every step consumes at least one
character).
-/

/-- The `re.sub(r'[\[\]]+', '', value)` pass: drop all square brackets. -/
def stripSquare (l : List Char) : List Char :=
  l.filter (fun c => !(c = '[' || c = ']'))

/-- The `re.sub(r' \([^()]*\)', '', value)` pass: remove each occurrence of a
space, an opening parenthesis, a run of non-parenthesis characters and a
closing parenthesis, scanning left to right without rescanning removed text. -/
def stripParenSpansF : Nat → List Char → List Char
  | 0, l => l
  | fuel + 1, l =>
    match l with
    | [] => []
    | c :: cs =>
      if c = ' ' then
        match cs with
        | '(' :: rest =>
          let inner := rest.takeWhile (fun d => !(d = '(' || d = ')'))
          match rest.drop inner.length with
          | ')' :: tail => stripParenSpansF fuel tail
          | _ => ' ' :: stripParenSpansF fuel cs
        | _ => ' ' :: stripParenSpansF fuel cs
      else c :: stripParenSpansF fuel cs

/-- Position of the first `-->` reachable by the non-greedy `(.*?)` (which
cannot cross a newline); `none` when a newline intervenes or no `-->` exists. -/
def commentEnd : List Char → Option Nat
  | [] => none
  | c :: cs =>
    if c = '\n' then none
    else if startsWithList ['-', '-', '>'] (c :: cs) then some 0
    else (commentEnd cs).map (· + 1)

/-- The `re.sub(r'<!--(.*?)-->', '', value)` pass. -/
def stripCommentsF : Nat → List Char → List Char
  | 0, l => l
  | fuel + 1, l =>
    match l with
    | [] => []
    | c :: cs =>
      if startsWithList ['<', '!', '-', '-'] (c :: cs) then
        match commentEnd (l.drop 4) with
        | some j => stripCommentsF fuel (l.drop (4 + j + 3))
        | none => c :: stripCommentsF fuel cs
      else c :: stripCommentsF fuel cs

/-- The `re.sub(r'<br(.*)', '', value)` pass: delete from each `<br` to the
end of its line (the newline itself survives, as `.` does not match it). -/
def stripBrF : Nat → List Char → List Char
  | 0, l => l
  | fuel + 1, l =>
    match l with
    | [] => []
    | c :: cs =>
      if startsWithList ['<', 'b', 'r'] (c :: cs) then
        stripBrF fuel (l.dropWhile (fun d => !(d = '\n')))
      else c :: stripBrF fuel cs

/-- Embedding of `clean_wikitext` (infobox_cleaner.py lines 31-48). -/
def clean_wikitext (value : String) : String :=
  let l := pyStripChars value.data
  let l := stripSquare l
  let l := stripParenSpansF (l.length + 1) l
  let l := stripCommentsF (l.length + 1) l
  let l := stripBrF (l.length + 1) l
  String.mk l

/-!
## infobox_cleaner.py: boolean property normalizers
-/

/-- Embedding of `members` (infobox_cleaner.py lines 67-79): on `None` the
`value.lower()` call raises `AttributeError`, which the function catches and
maps to `False`. -/
def members : Option String → Bool
  | none => false
  | some s => if pyLowerStr s = "true" || pyLowerStr s = "yes" then true else false

/-- Embedding of `aggressive` (infobox_cleaner.py lines 185-198). The source's
`elif value.split(" ")[0].lower in ["true", "yes"]` compares the unapplied
bound method `.lower` against a list of strings, so that branch never fires;
it is embedded as an `if false` arm. -/
def aggressive (value : Option String) : Bool :=
  let v := clean_wikitext (pyStr value)
  if pyLowerStr v = "true" || pyLowerStr v = "yes" then true
  else if False then true
  else false

/-- Embedding of `poisonous` (infobox_cleaner.py lines 201-217): falsy input
returns `False` before cleaning; the dead bound-method branch is as in
`aggressive`. -/
def poisonous (value : Option String) : Bool :=
  if !(pyTruthyOptStr value) then false
  else
    let v := clean_wikitext (value.getD "")
    if pyLowerStr v = "true" || pyLowerStr v = "yes" then true
    else if False then true
    else false

/-- Embedding of `venomous` (infobox_cleaner.py lines 220-232): truthy input
containing "venom" (case-insensitively) maps to `True`; everything else to
`False`. -/
def venomous (value : Option String) : Bool :=
  if !(pyTruthyOptStr value) then false
  else if strHas (pyLowerStr (value.getD "")) "venom" then true
  else false

/-- Embedding of `immune_poison` (infobox_cleaner.py lines 235-247). -/
def immune_poison (value : Option String) : Bool :=
  if !(pyTruthyOptStr value) then false
  else if pyLowerStr (value.getD "") = "true" || pyLowerStr (value.getD "") = "yes" then true
  else false

/-- Embedding of `immune_venom` (infobox_cleaner.py lines 250-262). -/
def immune_venom (value : Option String) : Bool :=
  if !(pyTruthyOptStr value) then false
  else if pyLowerStr (value.getD "") = "true" || pyLowerStr (value.getD "") = "yes" then true
  else false

/-- Counterexample to claim C4: `venomous` does not follow the
"true"/"yes" rule — the literal input "true" normalizes to `false`, while
"venom" (which is neither "true" nor "yes") normalizes to `true`, because
the source tests `"venom" in value.lower()` instead. -/
theorem C4_counterexample :
    venomous (some "true") = false ∧ venomous (some "venom") = true := by
  decide

/-- Claim C4 (amended): `members`, `aggressive`, `poisonous`, `immune_poison`
and `immune_venom` return true exactly when their input (cleaned first for
`aggressive` and `poisonous`) case-insensitively equals "true" or "yes", and
false on every other input including absent ones; `venomous` instead returns
true exactly when its truthy input contains "venom" case-insensitively.  All
six are total (no exception escapes: `members` catches the `AttributeError`
its `None` input provokes, the others guard or string-cast first). -/
theorem C4_thm :
    (members none = false) ∧
    (∀ s, members (some s) =
      (pyLowerStr s = "true" || pyLowerStr s = "yes")) ∧
    (∀ v, aggressive v =
      (pyLowerStr (clean_wikitext (pyStr v)) = "true" ||
        pyLowerStr (clean_wikitext (pyStr v)) = "yes")) ∧
    (poisonous none = false) ∧
    (∀ s, poisonous (some s) =
      (pyTruthyOptStr (some s) &&
        (pyLowerStr (clean_wikitext s) = "true" ||
          pyLowerStr (clean_wikitext s) = "yes"))) ∧
    (immune_poison none = false) ∧
    (∀ s, immune_poison (some s) =
      (pyTruthyOptStr (some s) &&
        (pyLowerStr s = "true" || pyLowerStr s = "yes"))) ∧
    (immune_venom none = false) ∧
    (∀ s, immune_venom (some s) =
      (pyTruthyOptStr (some s) &&
        (pyLowerStr s = "true" || pyLowerStr s = "yes"))) ∧
    (venomous none = false) ∧
    (∀ s, venomous (some s) =
      (pyTruthyOptStr (some s) && strHas (pyLowerStr s) "venom")) := by
  refine ⟨rfl, ?_, ?_, rfl, ?_, rfl, ?_, rfl, ?_, rfl, ?_⟩
  · intro s
    unfold members
    split <;> simp_all
  · intro v
    unfold aggressive
    split <;> simp_all
  · intro s
    unfold poisonous
    split
    · simp_all
    · split <;> simp_all
  · intro s
    unfold immune_poison
    split
    · simp_all
    · split <;> simp_all
  · intro s
    unfold immune_venom
    split
    · simp_all
    · split <;> simp_all
  · intro s
    unfold venomous
    split
    · simp_all
    · split <;> simp_all

/-!
## infobox_cleaner.py: integer, float and stat normalizers

Python's `int(...)` and `float(...)` builtins on strings are embedded as
parsers returning `none` for the `ValueError` case.  (CPython additionally
accepts single underscores between digits; no claim depends on that.)
-/

/-- Numeric value of a digit run. -/
def digitsVal (l : List Char) : Nat :=
  l.foldl (fun a c => a * 10 + (c.toNat - '0'.toNat)) 0

/-- A non-empty all-digit run, or `none`. -/
def digitsToNat? (l : List Char) : Option Nat :=
  if l.isEmpty then none
  else if l.all Char.isDigit then some (digitsVal l) else none

/-- Python `int(s)` for `s : str`: optional surrounding whitespace, optional
sign, then a non-empty run of decimal digits; anything else is `ValueError`
(`none`). -/
def pyInt (s : String) : Option Int :=
  match pyStripChars s.data with
  | '+' :: ds => (digitsToNat? ds).map (fun n => (n : Int))
  | '-' :: ds => (digitsToNat? ds).map (fun n => -(n : Int))
  | ds => (digitsToNat? ds).map (fun n => (n : Int))

/-- Embedding of `hitpoints` (infobox_cleaner.py lines 103-115): falsy input
gives `None`; otherwise `int(value)` with `ValueError` mapped to `None`. -/
def hitpoints : Option String → Option Int
  | none => none
  | some s => if s = "" then none else pyInt s

/-- Embedding of `attack_speed` (infobox_cleaner.py lines 170-182), same
shape as `hitpoints`. -/
def attack_speed : Option String → Option Int
  | none => none
  | some s => if s = "" then none else pyInt s

/-- Embedding of `slayer_level` (infobox_cleaner.py lines 343-355), same
shape as `hitpoints`. -/
def slayer_level : Option String → Option Int
  | none => none
  | some s => if s = "" then none else pyInt s

/-- The `re.split("[ ,]", value)[0]` step of `max_hit`: the prefix before the
first space or comma. -/
def pyFirstField (s : String) : String :=
  String.mk (s.data.takeWhile (fun c => !(c = ' ' || c = ',')))

/-- Embedding of `max_hit` (infobox_cleaner.py lines 118-132): falsy input
gives `None`; otherwise the first space/comma-separated field is parsed with
`int`, `ValueError` mapped to `None`. -/
def max_hit : Option String → Option Int
  | none => none
  | some s => if s = "" then none else pyInt (pyFirstField s)

/-- Result of Python `float(...)`: a finite rational, a signed infinity, or
a NaN (the wiki never needs more precision than ℚ). -/
inductive PyFloat where
  | finite (q : ℚ)
  | infty (neg : Bool)
  | nan
deriving DecidableEq

/-- Decimal part of Python `float(s)` after the sign: `D+ [. D*] [exp]` or
`. D+ [exp]` with `exp = (e|E) [sign] D+`. -/
def pyFloatDecimal (neg : Bool) (l : List Char) : Option ℚ :=
  let ip := l.takeWhile Char.isDigit
  let r1 := l.drop ip.length
  let hasDot := r1.head? = some '.'
  let afterDot := if hasDot then r1.tail else r1
  let fp := if hasDot then afterDot.takeWhile Char.isDigit else []
  let r2 := if hasDot then afterDot.drop fp.length else r1
  if ip.length + fp.length = 0 then none
  else
    let mant : ℚ := (digitsVal ip : ℚ) + (digitsVal fp : ℚ) / (10 : ℚ) ^ fp.length
    let signedMant := if neg then -mant else mant
    match r2 with
    | [] => some signedMant
    | c :: t =>
      if c = 'e' || c = 'E' then
        let eneg := t.head? = some '-'
        let t2 := if t.head? = some '-' || t.head? = some '+' then t.tail else t
        if t2.isEmpty || !(t2.all Char.isDigit) then none
        else
          let e : ℤ := if eneg then -(digitsVal t2 : ℤ) else (digitsVal t2 : ℤ)
          some (signedMant * (10 : ℚ) ^ e)
      else none

/-- Python `float(s)` for `s : str`: optional surrounding whitespace and
sign, then "inf"/"infinity"/"nan" (case-insensitive) or a decimal literal;
anything else is `ValueError` (`none`). -/
def pyFloat (s : String) : Option PyFloat :=
  let l := pyStripChars s.data
  let neg := l.head? = some '-'
  let l2 := if l.head? = some '-' || l.head? = some '+' then l.tail else l
  let low := l2.map Char.toLower
  if low = "inf".data || low = "infinity".data then some (PyFloat.infty neg)
  else if low = "nan".data then some PyFloat.nan
  else (pyFloatDecimal neg l2).map PyFloat.finite

/-- Embedding of `slayer_xp` (infobox_cleaner.py lines 358-372): falsy input
gives `None`; otherwise the cleaned value is parsed with `float`,
`ValueError` mapped to `None`. -/
def slayer_xp (value : Option String) : Option PyFloat :=
  match value with
  | none => none
  | some s =>
    if s = "" then none
    else pyFloat (clean_wikitext s)

/-- Embedding of `stats` (infobox_cleaner.py lines 426-435): `int(value)`
with only `ValueError` caught (mapped to the 0 sentinel).  On a `None`
input, `int(None)` raises `TypeError`, which the function does not catch. -/
def stats : Option String → Except String Int
  | none => Except.error "TypeError"
  | some s =>
    match pyInt s with
    | some n => Except.ok n
    | none => Except.ok 0

/-- Counterexample to claim C6: the stat normalizer does *not* return a value
for absent input — `int(None)` raises `TypeError`, and `stats` catches only
`ValueError`, so the exception escapes to the caller. -/
theorem C6_counterexample :
    stats none = Except.error "TypeError" := by
  rfl

/-- Claim C6 (amended): the integer normalizers `hitpoints`, `attack_speed`,
`slayer_level`, `max_hit` and the float normalizer `slayer_xp` return the
absent sentinel on absent, empty, or unparseable input and never raise;
`stats` returns the 0 sentinel for a string that fails to parse (and the
parsed value otherwise) but raises `TypeError` on absent input, which its
callers avoid by only invoking it on non-`None` values. -/
theorem C6_thm :
    (hitpoints none = none) ∧
    (∀ s, pyInt s = none → hitpoints (some s) = none) ∧
    (attack_speed none = none) ∧
    (∀ s, pyInt s = none → attack_speed (some s) = none) ∧
    (slayer_level none = none) ∧
    (∀ s, pyInt s = none → slayer_level (some s) = none) ∧
    (max_hit none = none) ∧
    (∀ s, pyInt (pyFirstField s) = none → max_hit (some s) = none) ∧
    (slayer_xp none = none) ∧
    (∀ s, pyFloat (clean_wikitext s) = none → slayer_xp (some s) = none) ∧
    (∀ s, pyInt s = none → stats (some s) = Except.ok 0) ∧
    (∀ s n, pyInt s = some n → stats (some s) = Except.ok n) ∧
    (stats none = Except.error "TypeError") := by
  refine ⟨rfl, ?_, rfl, ?_, rfl, ?_, rfl, ?_, rfl, ?_, ?_, ?_, rfl⟩
  · intro s h
    show (if s = "" then none else pyInt s) = none
    split <;> simp [h]
  · intro s h
    show (if s = "" then none else pyInt s) = none
    split <;> simp [h]
  · intro s h
    show (if s = "" then none else pyInt s) = none
    split <;> simp [h]
  · intro s h
    show (if s = "" then none else pyInt (pyFirstField s)) = none
    split <;> simp [h]
  · intro s h
    show (if s = "" then none else pyFloat (clean_wikitext s)) = none
    split <;> simp [h]
  · intro s h
    show (match pyInt s with
      | some n => Except.ok n
      | none => Except.ok 0) = Except.ok 0
    rw [h]
  · intro s n h
    show (match pyInt s with
      | some n => Except.ok n
      | none => Except.ok 0) = Except.ok n
    rw [h]

/-- Witness for C6: the sentinel branches at concrete unparseable inputs. -/
theorem C6_witness :
    hitpoints (some "abc") = none ∧ stats (some "abc") = Except.ok 0 :=
  ⟨C6_thm.2.1 "abc" (by decide), C6_thm.2.2.2.2.2.2.2.2.2.2.1 "abc" (by decide)⟩

/-!
## infobox_cleaner.py: the max-hit tokenizer

`tokenize_max_hit` (infobox_cleaner.py lines 438-475) scans each entry
string with explicit `tokenStart`/`tokenEnd` cursors.  The source's outer
`while` does not always progress: when the current character is `(` and the
entry contains a `)` only *before* the cursor, Python's `find` returns `-1`
and `tokenEnd` is reset to `tokenStart`, looping forever.  The embedding is
therefore fuel-indexed; `length + 1` fuel is exact for every terminating
run (each iteration advances the cursor by at least one), so fuel
exhaustion (`none`) models precisely the source's non-termination.
-/

/-- First index at which the two-character pattern `a b` occurs (Python
`find` of a two-character needle, with `-1` mapped to `none`). -/
def findPair (a b : Char) : List Char → Option Nat
  | [] => none
  | [_] => none
  | x :: y :: rest =>
    if x = a && y = b then some 0
    else (findPair a b (y :: rest)).map (· + 1)

/-- The inner `while tokenEnd < (textLength - 1) and isNumber == char.isdigit()
and char != " "` cursor walk of `tokenize_max_hit`. -/
def scanWhile (text : List Char) (isNumber : Bool) : Nat → Nat → Nat
  | 0, tokenEnd => tokenEnd
  | fuel + 1, tokenEnd =>
    if tokenEnd < text.length - 1 && (isNumber = (text.getD tokenEnd ' ').isDigit) &&
        !(text.getD tokenEnd ' ' = ' ') then
      scanWhile text isNumber fuel (tokenEnd + 1)
    else tokenEnd

/-- The maximal-uniform-run step of `tokenize_max_hit` (lines 461-467): the
inner `while` walk followed by the `else` clause that may consume the final
character. -/
def scanRun (text : List Char) (isNumber : Bool) (tokenEnd : Nat) : Nat :=
  let e := scanWhile text isNumber text.length tokenEnd
  if e = text.length - 1 && (isNumber = (text.getD e ' ').isDigit) then e + 1 else e

/-- The token-extent computation of one non-space iteration of
`tokenize_max_hit`: the parenthesis branch (line 456-457, Python `find`
returning `-1` embedded as the `none` arm), the double-brace branch (lines
458-459), and the maximal-uniform-run branch (lines 460-467). -/
def advanceCursor (text : List Char) (tokenStart tokenEnd : Nat) : Nat :=
  let char := text.getD tokenEnd ' '
  if char = '(' && text.contains ')' then
    match (text.drop tokenStart).findIdx? (fun c => c = ')') with
    | some i => tokenStart + i + 1
    | none => tokenStart
  else if tokenEnd < text.length - 4 && text.getD tokenEnd ' ' = '{' &&
      text.getD (tokenEnd + 1) ' ' = '{' &&
      (findPair '}' '}' (text.drop tokenEnd)).isSome then
    match findPair '}' '}' (text.drop tokenStart) with
    | some i => tokenStart + i + 2
    | none => tokenStart + 1
  else
    scanRun text char.isDigit tokenEnd

/-- The outer `while tokenEnd < textLength` loop of `tokenize_max_hit`,
fuel-indexed (see the section comment). -/
def tokenizeEntryLoop (text : List Char) (fuel tokenStart tokenEnd : Nat)
    (acc : List String) : Option (List String) :=
  if tokenEnd < text.length then
    match fuel with
    | 0 => none
    | fuel' + 1 =>
      if text.getD tokenEnd ' ' = ' ' then
        tokenizeEntryLoop text fuel' (tokenEnd + 1) (tokenEnd + 1) acc
      else
        let newEnd := advanceCursor text tokenStart tokenEnd
        let clean := ((text.drop tokenStart).take (newEnd - tokenStart)).filter
          (fun c => !(c = '(' || c = ')'))
        tokenizeEntryLoop text fuel' newEnd newEnd (acc ++ [String.mk clean])
  else some acc

/-- One unfolding of `tokenizeEntryLoop` at positive fuel. -/
theorem tokenizeEntryLoop_succ (text : List Char) (fuel tokenStart tokenEnd : Nat)
    (acc : List String) :
    tokenizeEntryLoop text (fuel + 1) tokenStart tokenEnd acc =
      if tokenEnd < text.length then
        if text.getD tokenEnd ' ' = ' ' then
          tokenizeEntryLoop text fuel (tokenEnd + 1) (tokenEnd + 1) acc
        else
          tokenizeEntryLoop text fuel (advanceCursor text tokenStart tokenEnd)
            (advanceCursor text tokenStart tokenEnd)
            (acc ++ [String.mk (((text.drop tokenStart).take
              (advanceCursor text tokenStart tokenEnd - tokenStart)).filter
              (fun c => !(c = '(' || c = ')')))])
      else some acc := rfl

/-- The loop returns its accumulator once the cursor passes the end of the
text. -/
theorem tokenizeEntryLoop_done (text : List Char) (fuel tokenStart tokenEnd : Nat)
    (acc : List String) (h : ¬ tokenEnd < text.length) :
    tokenizeEntryLoop text fuel tokenStart tokenEnd acc = some acc := by
  cases fuel with
  | zero => exact if_neg h
  | succ f => exact if_neg h

/-- Tokenization of one max-hit entry string. -/
def tokenize_entry (s : String) : Option (List String) :=
  tokenizeEntryLoop s.data (s.data.length + 1) 0 0 []

/-- Embedding of `tokenize_max_hit` (infobox_cleaner.py lines 438-475):
tokenize each entry; `none` when some entry makes the source loop forever. -/
def tokenize_max_hit (maxHitList : List String) : Option (List (List String)) :=
  match maxHitList with
  | [] => some []
  | s :: rest =>
    match tokenize_entry s, tokenize_max_hit rest with
    | some ts, some tl => some (ts :: tl)
    | _, _ => none

/-!
## infobox_cleaner.py: max_hit_by_attack_style
-/

/-- Python `str.isdigit()`: non-empty and all digits. -/
def pyIsDigitStr (s : String) : Bool :=
  !s.data.isEmpty && s.data.all Char.isDigit

/-- Python `str.split(",")`: split on every comma, keeping empty fields. -/
def splitOnComma : List Char → List (List Char)
  | [] => [[]]
  | c :: cs =>
    if c = ',' then [] :: splitOnComma cs
    else
      match splitOnComma cs with
      | [] => [[c]]
      | h :: t => (c :: h) :: t

/-- The entry preprocessing of `max_hit_by_attack_style` (line 543 and 544):
lower-case, drop square brackets, split on commas, strip each entry. -/
def preprocess_entries (s : String) : List String :=
  (splitOnComma (stripSquare (pyLowerStr s).data)).map (fun l => String.mk (pyStripChars l))

/-- Removal of every occurrence of a pattern (`str.replace(pat, "")`),
fuel-indexed with the always-sufficient `length + 1`. -/
def removeSub (pat : List Char) : Nat → List Char → List Char
  | 0, l => l
  | fuel + 1, l =>
    match l with
    | [] => []
    | c :: cs =>
      if startsWithList pat (c :: cs) then removeSub pat fuel (l.drop pat.length)
      else c :: removeSub pat fuel cs

/-- The legitimacy classification of one tokenized entry
(infobox_cleaner.py lines 577-634): reading `maxHitTokens[len - 1]` raises
`IndexError` on an empty token list; otherwise the entry is checked against
the fixed catalog of recognized final-token patterns. -/
def entry_legit (maxHitTokens : List String) : Except String Bool :=
  match maxHitTokens.getLast? with
  | none => Except.error "IndexError"
  | some finalToken =>
    Except.ok (
      pyIsDigitStr finalToken ||
      (maxHitTokens.headD "" = "0" || finalToken = "pickpocket failure" ||
        finalToken = "on wise old man" || finalToken = "with anti-dragon shield") ||
      (finalToken = "melee" || finalToken = "stab" || finalToken = "slash" ||
        finalToken = "crush" || finalToken = "magic" || finalToken = "ranged" ||
        finalToken = "normal" || finalToken = "regular hit" ||
        finalToken = "standard" || finalToken = "default") ||
      (finalToken = "melee; magic" || finalToken = "ranged/magic" ||
        finalToken = "magic/ranged" || finalToken = "ranged and magic") ||
      (finalToken = "dragonfire" || strHas finalToken "without" ||
        finalToken = "icy breath") ||
      (finalToken = "stomp" || finalToken = "special attack" ||
        finalToken = "with explosion" || finalToken = "special" ||
        finalToken = "special direct hit" || finalToken = "special indirect hit" ||
        finalToken = "range special" || finalToken = "dragonfire bomb/special" ||
        finalToken = "dragonfire; tsunami" ||
        finalToken = "dragonfire; fire traps; tsunami" || finalToken = "flies" ||
        finalToken = "dash" || finalToken = "bounce" ||
        finalToken = "bounce after standing underneath") ||
      (decide (maxHitTokens.length > 1) && maxHitTokens.getD 1 "" = "+") ||
      finalToken = "varies" ||
      (finalToken = "hitpoints" || finalToken = "protect from melee" ||
        finalToken = "approx" || finalToken = "ranged approx." ||
        finalToken = "melee?" || strHas finalToken "may be higher than 47" ||
        finalToken = "empowered") ||
      (decide (maxHitTokens.length > 2) &&
        (maxHitTokens.getD 1 "" = "x" || maxHitTokens.getD 1 "" = "/" ||
          (strHas finalToken "\x7b\x7b" && strHas finalToken "\x7d\x7d"))))

/-- The classification loop over all tokenized entries: collects the entries
the source prints as "unrecognized max hit style", propagating the
`IndexError` an empty token list raises. -/
def classify_entries : List (List String) → Except String (List (List String))
  | [] => Except.ok []
  | ts :: rest =>
    match entry_legit ts with
    | Except.error e => Except.error e
    | Except.ok legit =>
      match classify_entries rest with
      | Except.error e => Except.error e
      | Except.ok reported => Except.ok (if legit then reported else ts :: reported)

/-- Embedding of `max_hit_by_attack_style` (infobox_cleaner.py lines
530-659).  Falsy inputs short-circuit to `{"none": 0}`.  Otherwise the
entries are tokenized and classified (raising propagates, fuel exhaustion
models the source's non-termination); the attack-style loop only computes
unused locals (all pairing code is inside a string literal / commented out),
and the function unconditionally returns the constant triple. -/
def max_hit_by_attack_style (maxHitString attackStyleString : Option String) :
    Except String (List (String × Nat)) :=
  if pyFalsyStrOpt maxHitString || pyFalsyStrOpt attackStyleString then
    Except.ok [("none", 0)]
  else
    match tokenize_max_hit (preprocess_entries (maxHitString.getD "")) with
    | none => Except.error "nontermination"
    | some maxHitTokensList =>
      match classify_entries maxHitTokensList with
      | Except.error e => Except.error e
      | Except.ok _ =>
        let _ := (preprocess_entries (attackStyleString.getD "")).map
          (fun styleText => String.mk (pyStripChars (removeSub "typeless".data
            (styleText.data.length + 1) styleText.data)))
        Except.ok [("ranged", 10), ("magic", 20), ("melee", 30)]

/-- Claim C5 (the code bug it reveals): on max-hit string "4," the comma
split produces an empty second entry, whose token list is empty; the
classification then evaluates `maxHitTokens[len(maxHitTokens) - 1]` on an
empty list and raises `IndexError`, aborting processing instead of merely
reporting the entry and continuing. -/
theorem C5_thm :
    max_hit_by_attack_style (some "4,") (some "melee") = Except.error "IndexError" ∧
    tokenize_max_hit (preprocess_entries "4,") = some [["4"], []] ∧
    classify_entries [["4"], []] = Except.error "IndexError" := by
  refine ⟨by rfl, by decide, by rfl⟩

/-- Claim C7: tokenizing "50 (magic), 30 (ranged)" after comma-splitting
yields exactly two entries with ordered token lists ["50", "magic"] and
["30", "ranged"], the parentheses stripped from the stored qualifiers. -/
theorem C7_thm :
    tokenize_max_hit (preprocess_entries "50 (magic), 30 (ranged)") =
      some [["50", "magic"], ["30", "ranged"]] := by
  decide

/-- Claim C10: with a falsy max-hit or attack-style input the function
returns exactly `{"none": 0}`; on every pair of inputs on which it returns
at all, the returned mapping is that sentinel or the constant
`{"ranged": 10, "magic": 20, "melee": 30}`, independent of the input values. -/
theorem C10_thm (mh as : Option String) (d : List (String × Nat))
    (h : max_hit_by_attack_style mh as = Except.ok d) :
    d = (if pyFalsyStrOpt mh || pyFalsyStrOpt as then [("none", 0)]
      else [("ranged", 10), ("magic", 20), ("melee", 30)]) := by
  unfold max_hit_by_attack_style at h
  split at h
  next hb =>
    rw [if_pos hb]
    injection h with h
    exact h.symm
  next hb =>
    rw [if_neg hb]
    split at h
    · exact absurd h (by simp)
    · split at h
      · exact absurd h (by simp)
      · have h2 : Except.ok (ε := String)
            [("ranged", 10), ("magic", 20), ("melee", 30)] = Except.ok d := h
        injection h2 with h2
        exact h2.symm

/-- Witness for C10: the falsy branch at a concrete input. -/
theorem C10_witness :
    ([("none", 0)] : List (String × Nat)) =
      (if pyFalsyStrOpt none || pyFalsyStrOpt (some "melee") then [("none", 0)]
        else [("ranged", 10), ("magic", 20), ("melee", 30)]) :=
  C10_thm none (some "melee") [("none", 0)] (by rfl)

/-!
## Re-tokenization lemmas (claim C8)
-/

theorem scanWhile_digits (text : List Char) (hdig : ∀ c ∈ text, c.isDigit = true) :
    ∀ (fuel k : Nat), text.length - 1 ≤ k + fuel → k ≤ text.length - 1 →
      scanWhile text true fuel k = text.length - 1 := by
  intro fuel
  induction fuel with
  | zero =>
    intro k h1 h2
    have : k = text.length - 1 := by omega
    simpa [scanWhile] using this
  | succ f ih =>
    intro k h1 h2
    by_cases hk : k < text.length - 1
    · have hklen : k < text.length := by omega
      have hmem : text.getD k ' ' ∈ text := by
        rw [List.getD_eq_getElem text ' ' hklen]
        exact List.getElem_mem hklen
      have hd := hdig _ hmem
      have hsp : ¬ text.getD k ' ' = ' ' := by
        intro he
        rw [he] at hd
        simp at hd
      rw [scanWhile, if_pos (by
        simp only [Bool.and_eq_true, decide_eq_true_eq, Bool.not_eq_true',
          decide_eq_false_iff_not]
        exact ⟨⟨hk, hd.symm⟩, hsp⟩)]
      exact ih (k + 1) (by omega) (by omega)
    · have : k = text.length - 1 := by omega
      rw [scanWhile, if_neg (by simp [hk])]
      exact this

theorem scanRun_digits (text : List Char) (hne : text ≠ [])
    (hdig : ∀ c ∈ text, c.isDigit = true) :
    scanRun text true 0 = text.length := by
  have hlen : 1 ≤ text.length := by
    cases text
    · simp at hne
    · simp
  unfold scanRun
  rw [scanWhile_digits text hdig text.length 0 (by omega) (by omega)]
  have hklen : text.length - 1 < text.length := by omega
  have hmem : text.getD (text.length - 1) ' ' ∈ text := by
    rw [List.getD_eq_getElem text ' ' hklen]
    exact List.getElem_mem hklen
  rw [if_pos (by simp [(hdig _ hmem).symm])]
  omega

theorem tokenize_entry_digits (s : String) (hne : s.data ≠ [])
    (hdig : ∀ c ∈ s.data, c.isDigit = true) : tokenize_entry s = some [s] := by
  obtain ⟨l⟩ := s
  have hne' : l ≠ [] := hne
  have hdig' : ∀ c ∈ l, c.isDigit = true := hdig
  have hlen : 0 < l.length := by
    cases l
    · simp at hne'
    · simp
  have hmem0 : l.getD 0 ' ' ∈ l := by
    rw [List.getD_eq_getElem l ' ' hlen]
    exact List.getElem_mem hlen
  have hd0 := hdig' _ hmem0
  have hsp0 : ¬ l.getD 0 ' ' = ' ' := by
    intro he; rw [he] at hd0; simp at hd0
  have hpar0 : ¬ l.getD 0 ' ' = '(' := by
    intro he; rw [he] at hd0; simp at hd0
  have hbr0 : ¬ l.getD 0 ' ' = '{' := by
    intro he; rw [he] at hd0; simp at hd0
  have hnopar : ∀ c ∈ l, (fun c => !(c = '(' || c = ')')) c = true := by
    intro c hc
    have hd := hdig' _ hc
    have h1 : ¬ c = '(' := by intro he; rw [he] at hd; simp at hd
    have h2 : ¬ c = ')' := by intro he; rw [he] at hd; simp at hd
    simp [h1, h2]
  have hadv : advanceCursor l 0 0 = l.length := by
    unfold advanceCursor
    rw [if_neg (fun hcond => hpar0 (of_decide_eq_true
      ((Bool.and_eq_true _ _).mp hcond).1))]
    rw [if_neg (fun hcond => hbr0 (of_decide_eq_true
      ((Bool.and_eq_true _ _).mp
        ((Bool.and_eq_true _ _).mp ((Bool.and_eq_true _ _).mp hcond).1).1).2))]
    rw [hd0]
    exact scanRun_digits l hne' hdig'
  show tokenizeEntryLoop l (l.length + 1) 0 0 [] = some [⟨l⟩]
  rw [tokenizeEntryLoop_succ, if_pos hlen, if_neg hsp0, hadv,
    tokenizeEntryLoop_done _ _ _ _ _ (by omega)]
  rw [List.drop_zero, Nat.sub_zero, List.take_length,
    List.filter_eq_self.mpr hnopar]
  rfl

theorem tokenize_entry_brace (rest : List Char) (hlen3 : 3 ≤ rest.length)
    (hfind : findPair '}' '}' ('{' :: '{' :: rest) = some rest.length)
    (hnopar : ∀ c ∈ '{' :: '{' :: rest,
      (fun c => !(c = '(' || c = ')')) c = true) :
    tokenize_entry (String.mk ('{' :: '{' :: rest)) =
      some [String.mk ('{' :: '{' :: rest)] := by
  have hlenl : ('{' :: '{' :: rest).length = rest.length + 2 := by simp
  have hchar : ('{' :: '{' :: rest).getD 0 ' ' = '{' := rfl
  have hnpar : ¬ (('{' :: '{' :: rest).getD 0 ' ' = '(') := by
    rw [hchar]; decide
  have hsp : ¬ (('{' :: '{' :: rest).getD 0 ' ' = ' ') := by
    rw [hchar]; decide
  have hadv : advanceCursor ('{' :: '{' :: rest) 0 0 = ('{' :: '{' :: rest).length := by
    unfold advanceCursor
    rw [if_neg (fun hcond => hnpar (of_decide_eq_true
      ((Bool.and_eq_true _ _).mp hcond).1))]
    rw [if_pos (show (decide (0 < ('{' :: '{' :: rest).length - 4) &&
        decide (('{' :: '{' :: rest).getD 0 ' ' = '{') &&
        decide (('{' :: '{' :: rest).getD (0 + 1) ' ' = '{') &&
        (findPair '}' '}' (List.drop 0 ('{' :: '{' :: rest))).isSome) = true by
      rw [List.drop_zero, hfind]
      simp only [Bool.and_eq_true, decide_eq_true_eq]
      refine ⟨⟨⟨?_, rfl⟩, rfl⟩, rfl⟩
      rw [hlenl]
      omega)]
    rw [List.drop_zero, hfind]
    show 0 + rest.length + 2 = ('{' :: '{' :: rest).length
    rw [hlenl]
    omega
  show tokenizeEntryLoop ('{' :: '{' :: rest) (('{' :: '{' :: rest).length + 1) 0 0 []
      = some [⟨'{' :: '{' :: rest⟩]
  rw [tokenizeEntryLoop_succ, if_pos (by rw [hlenl]; omega), if_neg hsp, hadv,
    tokenizeEntryLoop_done _ _ _ _ _ (by omega)]
  rw [List.drop_zero, Nat.sub_zero, List.take_length,
    List.filter_eq_self.mpr hnopar]
  rfl

/-- Counterexample to claim C8: the entry "(a b)" tokenizes to the single
parenthetical-qualifier token "a b" (parentheses stripped); re-tokenizing
that token yields the two textual tokens "a" and "b", so a token that came
from a parenthetical run is not re-identified as one token of its original
qualifier type. -/
theorem C8_counterexample :
    tokenize_max_hit ["(a b)"] = some [["a b"]] ∧
    tokenize_max_hit ["a b"] = some [["a", "b"]] := by
  exact ⟨by decide, by decide⟩

/-- Claim C8 (amended): re-tokenizing reproduces numeric tokens (a non-empty
all-digit token re-tokenizes to exactly itself) and double-brace reference
tokens (which keep their braces, so a token `{{...}}` whose first `}}` closes
it re-tokenizes to exactly itself); parenthetical-qualifier tokens are stored
with their parentheses stripped, so re-tokenizing them yields plain
textual/numeric tokens split at spaces, not parenthetical qualifiers. -/
theorem C8_thm :
    (∀ s : String, s.data ≠ [] → (∀ c ∈ s.data, c.isDigit = true) →
      tokenize_entry s = some [s]) ∧
    (∀ rest : List Char, 3 ≤ rest.length →
      findPair '}' '}' ('{' :: '{' :: rest) = some rest.length →
      (∀ c ∈ '{' :: '{' :: rest, (fun c => !(c = '(' || c = ')')) c = true) →
      tokenize_entry (String.mk ('{' :: '{' :: rest)) =
        some [String.mk ('{' :: '{' :: rest)]) ∧
    tokenize_entry "(a b)" = some ["a b"] ∧
    tokenize_entry "a b" = some ["a", "b"] :=
  ⟨tokenize_entry_digits, tokenize_entry_brace, by decide, by decide⟩

/-- Witness for C8: a concrete numeric token and a concrete brace token each
re-tokenize to themselves. -/
theorem C8_witness :
    tokenize_entry "123" = some ["123"] ∧
    tokenize_entry "\x7b\x7bab\x7d\x7d" = some ["\x7b\x7bab\x7d\x7d"] :=
  ⟨C8_thm.1 "123" (by decide) (by decide),
   C8_thm.2.1 ['a', 'b', '\x7d', '\x7d'] (by decide) (by decide) (by decide)⟩

/-!
## monster_builder.py: the drop-list change differ

`compare_json_files` (monster_builder.py lines 685-727) separates the drop
list from the base properties, diffs the two drop lists with the external
`DeepDiff` engine (`ignore_order=True`), deletes the `iterable_item_added`
and `iterable_item_removed` keys from the result, and prints the remainder
only if it is non-empty.
-/

/-- One drop line as persisted in the monster record. -/
structure DropRecord where
  id : Option Nat
  name : String
  members : Bool
  quantity : String
  noted : Bool
  rarity : String
  drop_requirements : String
deriving DecidableEq

/-- The shape of a `DeepDiff` result on two drop lists: whole entries only
in the new list, whole entries only in the old list, and per-field
modifications of entries present in both (identified by drop name and field
name). -/
structure DeepDiffResult where
  iterable_item_added : List DropRecord
  iterable_item_removed : List DropRecord
  values_changed : List (String × String)
deriving DecidableEq

/-- Field-by-field comparison of a drop entry paired across the two lists;
each differing field is reported as (drop name, field name). -/
def fieldChanges (o n : DropRecord) : List (String × String) :=
  (if o.id ≠ n.id then [(o.name, "id")] else []) ++
  (if o.members ≠ n.members then [(o.name, "members")] else []) ++
  (if o.quantity ≠ n.quantity then [(o.name, "quantity")] else []) ++
  (if o.noted ≠ n.noted then [(o.name, "noted")] else []) ++
  (if o.rarity ≠ n.rarity then [(o.name, "rarity")] else []) ++
  (if o.drop_requirements ≠ n.drop_requirements then
    [(o.name, "drop_requirements")] else [])

/-- Modelled from the spec: the `DeepDiff(existing_drops, current_drops,
ignore_order=True)` call of `compare_json_files` uses the external DeepDiff
library, which is not part of this repository.  Following the spec (section
4.5), entries equal in both lists are matched; of the remainder, an old and
a new entry with the same drop name are considered the same entry present in
both versions and their differing fields are reported as modifications;
entries left unpaired are pure removals/additions. -/
def deepDiffDrops (old new : List DropRecord) : DeepDiffResult :=
  let oldRem := old.filter (fun o => !(new.contains o))
  let newRem := new.filter (fun n => !(old.contains n))
  { iterable_item_added :=
      newRem.filter (fun n => !(oldRem.any (fun o => o.name = n.name)))
  , iterable_item_removed :=
      oldRem.filter (fun o => !(newRem.any (fun n => n.name = o.name)))
  , values_changed :=
      (oldRem.map (fun o =>
        match newRem.find? (fun n => n.name = o.name) with
        | some n => fieldChanges o n
        | none => [])).flatten }

/-- Embedding of the drop-list reporting step of `compare_json_files`
(monster_builder.py lines 717-725): the `iterable_item_added` and
`iterable_item_removed` keys are deleted from the DeepDiff result, and the
remaining findings are printed only when something is left. -/
def changed_drop_findings (existing current : List DropRecord) :
    List (String × String) :=
  let dd := deepDiffDrops existing current
  let dd2 := { dd with iterable_item_added := [], iterable_item_removed := [] }
  if dd2.iterable_item_added.isEmpty ∧ dd2.iterable_item_removed.isEmpty ∧
      dd2.values_changed.isEmpty then []
  else dd2.values_changed

/-- Drop "A" of the worked example. -/
def dropA : DropRecord :=
  ⟨some 1, "A", false, "1", false, "1/128", ""⟩

/-- Drop "A" with only its quantity changed. -/
def dropAq : DropRecord :=
  ⟨some 1, "A", false, "2", false, "1/128", ""⟩

/-- Drop "B" of the worked example. -/
def dropB : DropRecord :=
  ⟨some 2, "B", false, "1", false, "1/64", ""⟩

/-- Drop "C" of the worked example. -/
def dropC : DropRecord :=
  ⟨some 3, "C", true, "5", true, "1/32", ""⟩

/-- Claim C3: the reported drop findings never include the pure
additions/removals (they equal the modification findings of the diff alone,
whatever was added or removed), and on the worked example prior `[A, B]`
versus current `[A, C]` with `A` unchanged nothing is reported, while a
change of `A`'s quantity reports exactly that field change. -/
theorem C3_thm :
    (∀ old new, changed_drop_findings old new =
      (deepDiffDrops old new).values_changed) ∧
    changed_drop_findings [dropA, dropB] [dropA, dropC] = [] ∧
    changed_drop_findings [dropA, dropB] [dropAq, dropC] = [("A", "quantity")] := by
  refine ⟨?_, by decide, by decide⟩
  intro old new
  unfold changed_drop_findings
  by_cases h : (deepDiffDrops old new).values_changed = []
  · simp [h]
  · simp [h, List.isEmpty_iff]
